import Mathlib

/-!
Verification development for the Huddle browser client's audio-capture page
(frontend/src/pages/CaptureAudio.js).  The definitions below are a shallow
embedding of the capture/transcription-cycling logic of that file: the
session-level event machine (`Protocol`) models the React component's refs
and state together with the handlers `startCapture`, `togglePause`,
`stopCapture`, `cycleTranscriptionRecorder`, `startServerTranscription`,
`stopServerTranscription` and `cleanup`; the `Capture` namespace holds
per-function embeddings of `captureSystemAudio`/`startCapture` (start path),
`stopCapture` (persistence path), `sendBlobForTranscription` and the level
monitor callback `updateLevel`.

Asynchrony model: the browser is single-threaded and event-driven; a handler
runs without preemption up to each `await`.  `stopCapture` awaits between its
synchronous prefix (status := stopping, stop of the transcription machinery,
`cleanup()`) and its backend persistence calls / state reset, so other UI or
platform events can run in between.  The machine therefore splits
`stopCapture` into `stopBody` (the synchronous prefix, which also snapshots
the closure state the continuation will use) and its continuation:
`stopFinish` for the run where every persistence call resolves, and
`stopFinishFail` for the run where one rejects and the catch branch is
taken.  All other handlers used here are synchronous.
-/

namespace Huddle

namespace Protocol

/-- The `status` state variable of CaptureAudio.js (line 32). -/
inductive Status where
  | idle
  | requesting
  | capturing
  | stopping
deriving DecidableEq

/-- One MediaRecorder used for transcription cycling.  `timesliceMs` is the
argument of `recorder.start(…)`; `chunks` are the sizes of the sub-chunks
delivered by `ondataavailable`, in delivery order; `active` is false once
`stop()` has been called. -/
structure Recorder where
  timesliceMs : Nat
  chunks : List Nat
  active : Bool
deriving DecidableEq

/-- The repeating cycle timer created by `setInterval` in
`startServerTranscription` (line 391). -/
structure Timer where
  periodMs : Nat
deriving DecidableEq

/-- A live-transcript entry as constructed in `sendBlobForTranscription`
(lines 326-332): `id` is `Date.now()` at append time. -/
structure Entry where
  id : Nat
  speaker : String
  text : String
  timestamp : String
deriving DecidableEq

/-- Backend requests issued by the page, tagged by endpoint. -/
inductive BCall where
  | recordingStart
  | transcribeAudio
  | persistTranscript
  | updateMeeting
  | recordingStop
deriving DecidableEq

/-- The closure state captured by an invocation of `stopCapture` that has
passed its first `await`: the `meetingId` and `liveTranscript` values the
continuation will read (React state captured at the render preceding the
invocation). -/
structure PendingStop where
  meetingId : Option Nat
  transcriptSnapshot : List Entry
deriving DecidableEq

/-- The component state relevant to the transcription-cycling protocol:
React state variables and refs of CaptureAudio.js. -/
structure S where
  status : Status
  isCapturing : Bool
  isCapturingRef : Bool
  isPaused : Bool
  /-- `transcriptionTimerRef.current` — the cycle interval, if scheduled. -/
  timer : Option Timer
  /-- `transcriptionRecorderRef.current`. -/
  recorder : Option Recorder
  /-- Ghost counter: number of MediaRecorder objects currently in a
  non-inactive state (a recorder object replaced in the ref without being
  stopped would stay active and keep this above one). -/
  activeRecorders : Nat
  /-- `activeStreamRef.current` is non-null. -/
  streamSet : Bool
  /-- The active stream still has live (non-ended, non-stopped) tracks. -/
  streamLive : Bool
  meetingId : Option Nat
  /-- `liveTranscript`. -/
  transcript : List Entry
  /-- Sizes of transcription-segment uploads issued and not yet completed. -/
  pendingUploads : List Nat
  /-- `stopCapture` invocations past their first await, oldest first. -/
  pendingStops : List PendingStop
  /-- Ghost counter: number of times the body of `stopCapture` has run. -/
  stopSeqCount : Nat
  /-- Body of the `POST /transcription/{meetingId}` persistence call, as the
  entry sequence it was rendered from. -/
  persisted : Option (List Entry)
  calls : List BCall
  /-- `animationFrameRef.current` holds a scheduled level-monitor frame. -/
  framePending : Bool
deriving DecidableEq

/-- Whether the recorder currently held by `transcriptionRecorderRef` is
active. -/
def recActive (s : S) : Bool :=
  match s.recorder with
  | some r => r.active
  | none => false

/-- The initial (mounted, idle) component state. -/
def init : S where
  status := Status.idle
  isCapturing := false
  isCapturingRef := false
  isPaused := false
  timer := none
  recorder := none
  activeRecorders := 0
  streamSet := false
  streamLive := false
  meetingId := none
  transcript := []
  pendingUploads := []
  pendingStops := []
  stopSeqCount := 0
  persisted := none
  calls := []
  framePending := false

/-- `sendBlobForTranscription` up to issuing the request (lines 291-320):
skipped unless a meeting id is set, the capturing flag is set, and the blob
is at least 1000 bytes; otherwise the authenticated request is issued and
recorded as in flight. -/
def sendBlob (blobSize : Nat) (s : S) : S :=
  if s.meetingId.isNone || !s.isCapturingRef then s
  else if blobSize < 1000 then s
  else { s with pendingUploads := s.pendingUploads ++ [blobSize],
                calls := s.calls ++ [BCall.transcribeAudio] }

/-- Stopping the current transcription recorder: `recorder.stop()` marks it
inactive, and its `onstop` handler (lines 358-364) concatenates the collected
sub-chunks into one blob and hands it to `sendBlobForTranscription` when any
sub-chunks were collected. -/
def stopRecorderAndFlush (s : S) : S :=
  match s.recorder with
  | some r =>
    if r.active then
      let s1 := { s with recorder := some { r with active := false },
                         activeRecorders := s.activeRecorders - 1 }
      if r.chunks ≠ [] then sendBlob r.chunks.sum s1 else s1
    else s
  | none => s

/-- `startTranscriptionRecorder` (lines 344-371): returns early when the
active stream ref is null or has no audio tracks; constructing and starting
the MediaRecorder raises (and is caught) when the stream is inactive, leaving
no recorder; otherwise a fresh recorder with a 1000 ms timeslice is started
and stored in the ref. -/
def startTranscriptionRecorder (s : S) : S :=
  if !s.streamSet then s
  else if !s.streamLive then s
  else { s with recorder := some { timesliceMs := 1000, chunks := [], active := true },
                activeRecorders := s.activeRecorders + 1 }

/-- `cycleTranscriptionRecorder` (lines 373-382): stop the current recorder
(triggering its flush), then start a fresh one iff the capturing flag is
still set. -/
def cycleTranscriptionRecorder (s : S) : S :=
  let s1 := stopRecorderAndFlush s
  if s1.isCapturingRef then startTranscriptionRecorder s1 else s1

/-- `startServerTranscription` (lines 384-396): start the first recorder and
schedule the repeating 10000 ms cycle timer. -/
def startServerTranscription (s : S) : S :=
  let s1 := startTranscriptionRecorder s
  { s1 with timer := some { periodMs := 10000 } }

/-- `stopServerTranscription` (lines 398-411): clear the cycle timer, stop
the current recorder (flushing remaining audio), null the ref. -/
def stopServerTranscription (s : S) : S :=
  let s1 := { s with timer := none }
  let s2 := stopRecorderAndFlush s1
  { s2 with recorder := none }

/-- `cleanup` (lines 92-124): cancel the pending animation frame, clear the
cycle timer, stop and drop the transcription recorder, stop every acquired
track (so the active stream goes inactive), close the audio context. -/
def cleanup (s : S) : S :=
  let s1 := { s with framePending := false, timer := none }
  let s2 := stopRecorderAndFlush s1
  { s2 with recorder := none, streamLive := false }

/-- A successful run of `startCapture` (lines 416-512) as one event: the
display stream is acquired live, `POST /recording/start` succeeds with
meeting id `m`, the capturing flags are set, server transcription starts,
and the transcript is cleared.  `startCapture` has no enabled competing
handlers between its awaits (the transcription machinery does not exist yet),
so it is modelled atomically. -/
def startOkEv (m : Nat) (s : S) : S :=
  let s1 := { s with status := Status.requesting, streamSet := true, streamLive := true,
                     framePending := true,
                     calls := s.calls ++ [BCall.recordingStart], meetingId := some m }
  let s2 := { s1 with isCapturing := true, isCapturingRef := true }
  let s3 := startServerTranscription s2
  { s3 with isPaused := false, transcript := [], status := Status.capturing }

/-- `togglePause` (lines 517-535): resume restarts server transcription and
clears the paused flag; pause stops server transcription and sets it. -/
def togglePause (s : S) : S :=
  if s.isPaused then
    let s1 := startServerTranscription s
    { s1 with isPaused := false }
  else
    let s1 := stopServerTranscription s
    { s1 with isPaused := true }

/-- The synchronous prefix of `stopCapture` (lines 540-553): set status to
`stopping`, stop server transcription, run `cleanup`, and remember the
continuation together with the closure values (`meetingId`,
`liveTranscript`) it will use.  `snap` holds those closure values: each
invoked `stopCapture` reads the React state of the render that created the
closure it was invoked through. -/
def stopBody (snap : PendingStop) (s : S) : S :=
  let s1 := { s with status := Status.stopping }
  let s2 := stopServerTranscription s1
  let s3 := cleanup s2
  { s3 with pendingStops := s3.pendingStops ++ [snap],
            stopSeqCount := s3.stopSeqCount + 1 }

/-- Rendering of `fullTranscript` in `stopCapture` (lines 557-559). -/
def renderTranscript (l : List Entry) : String :=
  String.intercalate "\n\n"
    (l.map (fun e => e.speaker ++ " (" ++ e.timestamp ++ "): " ++ e.text))

/-- The continuation of the oldest in-flight `stopCapture` in the run where
every awaited persistence call resolves (lines 556-601): when its snapshotted
`meetingId` is set, issue the three persistence calls in order with the
snapshotted transcript as the persisted document; then reset the capturing
flags, the paused flag, the meeting id and the status.  The run in which a
persistence call rejects instead takes the catch branch and is modelled by
`stopFinishFail`. -/
def stopFinish (s : S) : S :=
  match s.pendingStops with
  | [] => s
  | ps :: rest =>
    let s1 :=
      match ps.meetingId with
      | some _ =>
        { s with persisted := some ps.transcriptSnapshot,
                 calls := s.calls ++ [BCall.persistTranscript, BCall.updateMeeting,
                                      BCall.recordingStop] }
      | none => s
    { s1 with pendingStops := rest, isCapturing := false, isCapturingRef := false,
              isPaused := false, meetingId := none, status := Status.idle }

/-- The continuation of the oldest in-flight `stopCapture` when the
(k+1)-th of its three persistence calls rejects (network failure): the calls
up to and including the rejecting one were issued, and the catch branch
(lines 603-607) logs, surfaces an error message and sets status to idle —
the reset block (lines 593-601) is skipped, so the capturing flags, the
paused flag and the meeting id are left unchanged.  A continuation whose
snapshot holds no meeting id issues no awaited call and cannot reject: it
completes as `stopFinish`. -/
def stopFinishFail (k : Fin 3) (s : S) : S :=
  match s.pendingStops with
  | [] => s
  | ps :: rest =>
    match ps.meetingId with
    | none => stopFinish s
    | some _ =>
      { s with
          calls := s.calls ++
            ([BCall.persistTranscript, BCall.updateMeeting,
              BCall.recordingStop].take (k.val + 1)),
          persisted := some ps.transcriptSnapshot,
          pendingStops := rest,
          status := Status.idle }

/-- Delivery of a platform track-ended event (registered at lines 449-456):
the track has ended, and the handler runs `stopCapture` iff the capturing
flag is still set.  The handler was created during `startCapture`, so the
`stopCapture` closure it invokes captured the React state of the render in
which `startCapture` ran: there `meetingId` was still null (it is set only
via `setMeetingId` during that very run) and `liveTranscript` was the
cleared list, so the invoked continuation reads a null meeting id and skips
the persistence block entirely. -/
def trackEnded (s : S) : S :=
  let s1 := { s with streamLive := false }
  if s1.isCapturingRef then
    stopBody { meetingId := none, transcriptSnapshot := [] } s1
  else s1

/-- A firing of the cycle interval. -/
def timerTick (s : S) : S :=
  if s.timer.isSome then cycleTranscriptionRecorder s else s

/-- A click of the Stop button, enabled only while capturing and not already
`stopping` (lines 893-900). -/
def stopClickEv (s : S) : S :=
  if s.isCapturing && s.status ≠ Status.stopping then
    stopBody { meetingId := s.meetingId, transcriptSnapshot := s.transcript } s
  else s

/-- An `ondataavailable` delivery of one sub-chunk of `size` bytes to the
active transcription recorder. -/
def dataChunk (size : Nat) (s : S) : S :=
  match s.recorder with
  | some r => if r.active then { s with recorder := some { r with chunks := r.chunks ++ [size] } } else s
  | none => s

/-- JS `String.prototype.trim()`: strips leading and trailing whitespace.
Structurally recursive so that concrete evaluations reduce. -/
def trimWs (s : String) : String :=
  String.mk (((s.data.dropWhile Char.isWhitespace).reverse.dropWhile
    Char.isWhitespace).reverse)

/-- Completion of the oldest in-flight transcription upload (lines 322-335):
on an ok response whose text is non-empty after trimming, an entry with the
current wall-clock millisecond id is appended to the live transcript. -/
def uploadComplete (ok : Bool) (text : String) (now : Nat) (tlabel : String) (s : S) : S :=
  match s.pendingUploads with
  | [] => s
  | _ :: rest =>
    let s1 := { s with pendingUploads := rest }
    if ok && trimWs text ≠ "" then
      { s1 with transcript := s1.transcript ++
          [{ id := now, speaker := "Speaker", text := trimWs text, timestamp := tlabel }] }
    else s1

/-- One component event, with the availability conditions the page actually
imposes: the Start button is rendered only while not capturing and is
disabled while `status` is `requesting` (lines 866-871); the Pause/Resume
button is rendered while capturing and never disabled (lines 886-892); the
Stop button is rendered while capturing and disabled while `status` is
`stopping` (lines 893-900); track-ended events, timer ticks, data chunks and
upload completions are delivered by the platform.  A nonempty trimmed title
is additionally required for Start; the title does not influence any field
modelled here. -/
inductive UStep : S → S → Prop where
  | start (m : Nat) {s : S} : s.isCapturing = false → s.status ≠ Status.requesting →
      UStep s (startOkEv m s)
  | toggle {s : S} : s.isCapturing = true → UStep s (togglePause s)
  | stopClick {s : S} : s.isCapturing = true → s.status ≠ Status.stopping →
      UStep s (stopClickEv s)
  | ended {s : S} : UStep s (trackEnded s)
  | tick {s : S} : s.timer.isSome = true → UStep s (cycleTranscriptionRecorder s)
  | finish {s : S} : s.pendingStops ≠ [] → UStep s (stopFinish s)
  | finishFail (k : Fin 3) {s : S} : s.pendingStops ≠ [] → UStep s (stopFinishFail k s)
  | chunk (size : Nat) {s : S} : UStep s (dataChunk size s)
  | upload (ok : Bool) (text : String) (now : Nat) (tlabel : String) {s : S} :
      UStep s (uploadComplete ok text now tlabel s)

/-- States reachable from the mounted component by any event interleaving. -/
inductive UReach : S → Prop where
  | refl : UReach init
  | step {s s2 : S} : UReach s → UStep s s2 → UReach s2

/-- The restricted event relation: as `UStep`, but (i) no start, pause/resume
toggle, stop click or track-ended event is delivered while a `stopCapture`
continuation is still in flight (`pendingStops ≠ []`), and (ii) every stop
continuation completes with all of its persistence calls resolving (there is
no `finishFail` step: a rejected call skips the reset block of `stopCapture`
and leaves the capturing flags set at status idle, see the C2
counterexample). -/
inductive RStep : S → S → Prop where
  | start (m : Nat) {s : S} : s.isCapturing = false → s.status ≠ Status.requesting →
      s.pendingStops = [] → RStep s (startOkEv m s)
  | toggle {s : S} : s.isCapturing = true → s.pendingStops = [] → RStep s (togglePause s)
  | stopClick {s : S} : s.isCapturing = true → s.status ≠ Status.stopping →
      s.pendingStops = [] → RStep s (stopClickEv s)
  | ended {s : S} : s.pendingStops = [] → RStep s (trackEnded s)
  | tick {s : S} : s.timer.isSome = true → RStep s (cycleTranscriptionRecorder s)
  | finish {s : S} : s.pendingStops ≠ [] → RStep s (stopFinish s)
  | chunk (size : Nat) {s : S} : RStep s (dataChunk size s)
  | upload (ok : Bool) (text : String) (now : Nat) (tlabel : String) {s : S} :
      RStep s (uploadComplete ok text now tlabel s)

/-- States reachable when no user or platform event interleaves with an
in-flight stop sequence. -/
inductive RReach : S → Prop where
  | refl : RReach init
  | step {s s2 : S} : RReach s → RStep s s2 → RReach s2

/-- The inductive invariant of the restricted system. -/
structure Inv (s : S) : Prop where
  pausedClean : s.isPaused = true → recActive s = false ∧ s.timer = none
  idleClean : s.status = Status.idle →
    recActive s = false ∧ s.timer = none ∧ s.pendingStops = [] ∧ s.isCapturing = false
  stoppingClean : s.status = Status.stopping → recActive s = false ∧ s.timer = none
  refSync : s.isCapturingRef = s.isCapturing
  counterSync : s.activeRecorders = (if recActive s = true then 1 else 0)
  capStatus : s.isCapturing = true → s.pendingStops = [] → s.status = Status.capturing
  pendingLe : s.pendingStops.length ≤ 1
  pendingStopping : s.pendingStops ≠ [] → s.status = Status.stopping
  noReq : s.status ≠ Status.requesting
  timerCap : s.timer.isSome = true →
    s.status = Status.capturing ∧ s.isPaused = false ∧ s.isCapturing = true
  recImpCap : recActive s = true → s.isCapturing = true ∧ s.isPaused = false

/-- Concrete state used to witness the cycling-recorder theorem: capturing,
with an active recorder that has collected two 600-byte sub-chunks. -/
def c1State : S :=
  { init with status := Status.capturing, isCapturing := true, isCapturingRef := true,
              timer := some { periodMs := 10000 },
              recorder := some { timesliceMs := 1000, chunks := [600, 600], active := true },
              activeRecorders := 1, streamSet := true, streamLive := true,
              meetingId := some 7 }

/-- Trace used to witness the persisted-snapshot theorem: a session is
started, one full cycle produces an uploaded segment whose text "hello" is
appended, a further 1500-byte sub-chunk accumulates, and the user clicks
Stop (the final partial segment is flushed to upload during the stop). -/
def c10Trace : S :=
  stopClickEv (dataChunk 1500 (uploadComplete true "hello" 100 "t1"
    (timerTick (dataChunk 600 (dataChunk 600 (startOkEv 7 init))))))

end Protocol

namespace Capture

/-- Kind of a MediaStreamTrack. -/
inductive TrackKind where
  | audio
  | video
deriving DecidableEq

/-- A MediaStreamTrack with its stopped state. -/
structure Track where
  kind : TrackKind
  stopped : Bool
deriving DecidableEq

/-- `track.stop()`. -/
def stopTrack (t : Track) : Track := { t with stopped := true }

/-- Outcome of the `getDisplayMedia` prompt (environment input): the user
grants a stream with the given tracks, dismisses the prompt
(NotAllowedError), or the platform fails otherwise. -/
inductive AcqOutcome where
  | granted (tracks : List Track)
  | notAllowed
  | failure
deriving DecidableEq

/-- Errors raised along the start path, per the messages thrown in
`captureSystemAudio` (lines 194-219) and `startCapture` (lines 444-446,
470). -/
inductive CapError where
  | noAudio
  | cancelled
  | platform
  | noStream
  | backendStartFailed
deriving DecidableEq

/-- `captureSystemAudio` (lines 170-220): requests display sharing; when the
acquired stream has zero audio tracks, stops every track of the stream and
throws the no-audio error; otherwise stops the video tracks and returns the
audio-only stream.  The value threaded alongside the outcome is the final
state of all tracks of the acquired display stream. -/
def captureSystemAudio (env : AcqOutcome) :
    Except (CapError × List Track) (List Track × List Track) :=
  match env with
  | AcqOutcome.notAllowed => Except.error (CapError.cancelled, [])
  | AcqOutcome.failure => Except.error (CapError.platform, [])
  | AcqOutcome.granted tracks =>
    let audioTracks := tracks.filter (fun t => t.kind == TrackKind.audio)
    if audioTracks.length = 0 then
      Except.error (CapError.noAudio, tracks.map stopTrack)
    else
      Except.ok (audioTracks,
        tracks.map (fun t => if t.kind == TrackKind.video then stopTrack t else t))

/-- Environment of one `startCapture` run: the display-prompt outcome and
the `POST /recording/start` outcome (`Except.ok m` resolves with meeting id
`m`; the code checks `response.ok` on this call, line 470, so a non-ok
response is also an `Except.error`). -/
structure StartEnv where
  display : AcqOutcome
  backendStart : Except Unit Nat

/-- Fields of the component state after a `startCapture` run that the
start-path claims are about. -/
structure StartResult where
  error : Option CapError
  status : Protocol.Status
  calls : List Protocol.BCall
  /-- Final state of the acquired display stream's tracks. -/
  displayTracks : List Track
  meetingId : Option Nat
  capturing : Bool
deriving DecidableEq

/-- `startCapture` (lines 416-512) for the display-audio sources (`system`
and `tab` both route through `captureSystemAudio`): any throw before line
462 lands in the catch branch (lines 506-511), which surfaces the error,
resets status to idle and runs cleanup, without ever issuing
`POST /recording/start`; after successful acquisition the backend call is
issued, and only its success reaches the capturing state. -/
def startCapture (env : StartEnv) : StartResult :=
  match captureSystemAudio env.display with
  | Except.error (e, ts) =>
    { error := some e, status := Protocol.Status.idle, calls := [],
      displayTracks := ts, meetingId := none, capturing := false }
  | Except.ok (audioTracks, ts) =>
    if audioTracks.length = 0 then
      { error := some CapError.noStream, status := Protocol.Status.idle, calls := [],
        displayTracks := ts, meetingId := none, capturing := false }
    else
      match env.backendStart with
      | Except.error _ =>
        { error := some CapError.backendStartFailed, status := Protocol.Status.idle,
          calls := [Protocol.BCall.recordingStart], displayTracks := ts,
          meetingId := none, capturing := false }
      | Except.ok m =>
        { error := none, status := Protocol.Status.capturing,
          calls := [Protocol.BCall.recordingStart], displayTracks := ts,
          meetingId := some m, capturing := true }

/-- The Start Capture button (lines 866-883): rendered only while not
capturing, disabled when the trimmed title is empty or status is
`requesting`. -/
def startButtonEnabled (title : String) (status : Protocol.Status)
    (capturing : Bool) : Bool :=
  !capturing && !(Protocol.trimWs title == "") && !(status == Protocol.Status.requesting)

/-- A click on the Start Capture button: `startCapture` runs only when the
button is enabled. -/
def startCaptureClick (title : String) (status : Protocol.Status) (capturing : Bool)
    (env : StartEnv) : Option StartResult :=
  if startButtonEnabled title status capturing then some (startCapture env) else none

/-- A resolved HTTP response as seen by the page: only its `ok` flag is
relevant to the stop path. -/
structure Resp where
  ok : Bool
deriving DecidableEq

/-- Modelled from the spec: `makeAuthenticatedRequest` (AuthContext, not
under src/) attaches the bearer credential and performs the request;
following its in-src callers, which test `response.ok` after a resolved call
(CaptureAudio.js lines 138, 154, 322, 470), a completed HTTP exchange
resolves to a response carrying an `ok` flag, and only a network failure
rejects.  This structure gives the outcomes of the three persistence calls
of `stopCapture`. -/
structure StopEnv where
  persistTranscript : Except Unit Resp
  updateMeeting : Except Unit Resp
  recordingStop : Except Unit Resp

/-- Observable outcome of one `stopCapture` run. -/
structure StopResult where
  /-- `stopServerTranscription`, media-recorder stop and `cleanup()` all ran
  (they precede every persistence call, lines 542-553). -/
  cleanupDone : Bool
  /-- All acquired tracks were stopped by `cleanup`. -/
  streamsReleased : Bool
  /-- The audio context was closed by `cleanup`. -/
  contextsClosed : Bool
  calls : List Protocol.BCall
  surfacedError : Option String
  status : Protocol.Status
  /-- The final reset block (lines 593-601) ran: isCapturing, isPaused,
  meetingId and the capturing ref were cleared. -/
  flagsReset : Bool
  /-- Body of the transcript persistence call, when it was issued. -/
  persistedDoc : Option String
deriving DecidableEq

/-- `stopCapture` (lines 540-608): local teardown first, then — when a
meeting id is set — the three persistence calls in order, awaited one after
the other with no `response.ok` check; a rejected call jumps to the catch
branch (lines 603-607), which surfaces an error message and sets status to
idle, skipping the remaining calls and the final reset block. -/
def stopCapture (meetingId : Option Nat) (transcript : List Protocol.Entry)
    (env : StopEnv) : StopResult :=
  let base : StopResult :=
    { cleanupDone := true, streamsReleased := true, contextsClosed := true,
      calls := [], surfacedError := none, status := Protocol.Status.stopping,
      flagsReset := false, persistedDoc := none }
  match meetingId with
  | none => { base with status := Protocol.Status.idle, flagsReset := true }
  | some _ =>
    let doc := Protocol.renderTranscript transcript
    match env.persistTranscript with
    | Except.error _ =>
      { base with
          calls := [Protocol.BCall.persistTranscript],
          persistedDoc := some doc,
          surfacedError := some "Failed to save recording. Please try again.",
          status := Protocol.Status.idle }
    | Except.ok _ =>
      match env.updateMeeting with
      | Except.error _ =>
        { base with
            calls := [Protocol.BCall.persistTranscript, Protocol.BCall.updateMeeting],
            persistedDoc := some doc,
            surfacedError := some "Failed to save recording. Please try again.",
            status := Protocol.Status.idle }
      | Except.ok _ =>
        match env.recordingStop with
        | Except.error _ =>
          { base with
              calls := [Protocol.BCall.persistTranscript, Protocol.BCall.updateMeeting,
                Protocol.BCall.recordingStop],
              persistedDoc := some doc,
              surfacedError := some "Failed to save recording. Please try again.",
              status := Protocol.Status.idle }
        | Except.ok _ =>
          { base with
              calls := [Protocol.BCall.persistTranscript, Protocol.BCall.updateMeeting,
                Protocol.BCall.recordingStop],
              persistedDoc := some doc,
              status := Protocol.Status.idle, flagsReset := true }

/-- The transcribe-audio response: `ok` flag and the `text` field of the
JSON body (empty string when missing). -/
structure TResp where
  ok : Bool
  text : String
deriving DecidableEq

/-- Environment of one `sendBlobForTranscription` run: the FileReader
base64 conversion outcome and the network outcome of the authenticated
transcribe-audio request. -/
structure SendEnv where
  readerResult : Except Unit String
  netResult : Except Unit TResp

/-- The state `sendBlobForTranscription` reads and writes. -/
structure SendState where
  transcript : List Protocol.Entry
  isTranscribing : Bool
  /-- The cycle timer, untouched by uploads: an upload failure never aborts
  the cycling loop. -/
  timerScheduled : Bool
deriving DecidableEq

/-- `sendBlobForTranscription` (lines 291-341): skipped without a meeting id
or capturing flag, or for blobs under 1000 bytes; otherwise the blob is
converted and posted; every failure is caught and logged (the function
always returns normally), the finally block clears the transcribing flag,
and an entry is appended exactly when the response is ok and its text is
non-empty after trimming. -/
def sendBlobForTranscription (meetingId : Option Nat) (capturingRef : Bool)
    (blobSize : Nat) (now : Nat) (tlabel : String) (env : SendEnv)
    (st : SendState) : SendState :=
  if meetingId.isNone || !capturingRef then st
  else if blobSize < 1000 then st
  else
    match env.readerResult with
    | Except.error _ => { st with isTranscribing := false }
    | Except.ok _ =>
      match env.netResult with
      | Except.error _ => { st with isTranscribing := false }
      | Except.ok resp =>
        if resp.ok && Protocol.trimWs resp.text ≠ "" then
          { st with isTranscribing := false,
                    transcript := st.transcript ++
                      [{ id := now, speaker := "Speaker",
                         text := Protocol.trimWs resp.text, timestamp := tlabel }] }
        else { st with isTranscribing := false }

/-- State of the level monitor (`setupAudioVisualization`, lines 259-283). -/
structure MonState where
  analyserSet : Bool
  capturingRef : Bool
  framePending : Bool
  /-- Ghost counter: samples taken. -/
  sampled : Nat
  audioLevel : Nat
deriving DecidableEq

/-- `updateLevel` (lines 270-278): one animation-frame callback run with
mean frequency magnitude `avg`; returns without sampling or rescheduling
unless the analyser is set and the still-capturing flag holds; otherwise
publishes the bounded level and schedules the next frame. -/
def updateLevel (avg : Nat) (st : MonState) : MonState :=
  if !st.analyserSet || !st.capturingRef then { st with framePending := false }
  else { st with sampled := st.sampled + 1,
                 audioLevel := min 100 (avg * 100 / 128),
                 framePending := true }

/-- Concrete stop environment where the transcript persistence resolves ok,
the meeting-metadata update resolves as an HTTP error (ok = false, a
simulated 500), and the finalize call resolves ok. -/
def c3Env : StopEnv :=
  { persistTranscript := Except.ok { ok := true },
    updateMeeting := Except.ok { ok := false },
    recordingStop := Except.ok { ok := true } }

/-- Upload environments resolving ok with texts "hello" and "world". -/
def c8EnvA : SendEnv :=
  { readerResult := Except.ok "b64", netResult := Except.ok { ok := true, text := "hello" } }

/-- Second upload environment for the same-millisecond counterexample. -/
def c8EnvB : SendEnv :=
  { readerResult := Except.ok "b64", netResult := Except.ok { ok := true, text := "world" } }

/-- Start environment for the no-audio witness: the dialog grants a stream
holding a single video track and no audio track. -/
def c4Env : StartEnv :=
  { display := AcqOutcome.granted [{ kind := TrackKind.video, stopped := false }],
    backendStart := Except.ok 1 }

end Capture

namespace Protocol

@[simp] theorem sendBlob_status (n : Nat) (s : S) : (sendBlob n s).status = s.status := by
  unfold sendBlob; split_ifs <;> rfl

@[simp] theorem sendBlob_isCapturing (n : Nat) (s : S) :
    (sendBlob n s).isCapturing = s.isCapturing := by
  unfold sendBlob; split_ifs <;> rfl

@[simp] theorem sendBlob_isCapturingRef (n : Nat) (s : S) :
    (sendBlob n s).isCapturingRef = s.isCapturingRef := by
  unfold sendBlob; split_ifs <;> rfl

@[simp] theorem sendBlob_isPaused (n : Nat) (s : S) : (sendBlob n s).isPaused = s.isPaused := by
  unfold sendBlob; split_ifs <;> rfl

@[simp] theorem sendBlob_timer (n : Nat) (s : S) : (sendBlob n s).timer = s.timer := by
  unfold sendBlob; split_ifs <;> rfl

@[simp] theorem sendBlob_recorder (n : Nat) (s : S) : (sendBlob n s).recorder = s.recorder := by
  unfold sendBlob; split_ifs <;> rfl

@[simp] theorem sendBlob_activeRecorders (n : Nat) (s : S) :
    (sendBlob n s).activeRecorders = s.activeRecorders := by
  unfold sendBlob; split_ifs <;> rfl

@[simp] theorem sendBlob_pendingStops (n : Nat) (s : S) :
    (sendBlob n s).pendingStops = s.pendingStops := by
  unfold sendBlob; split_ifs <;> rfl

@[simp] theorem sendBlob_streamSet (n : Nat) (s : S) :
    (sendBlob n s).streamSet = s.streamSet := by
  unfold sendBlob; split_ifs <;> rfl

@[simp] theorem sendBlob_streamLive (n : Nat) (s : S) :
    (sendBlob n s).streamLive = s.streamLive := by
  unfold sendBlob; split_ifs <;> rfl

@[simp] theorem sendBlob_transcript (n : Nat) (s : S) :
    (sendBlob n s).transcript = s.transcript := by
  unfold sendBlob; split_ifs <;> rfl

@[simp] theorem sendBlob_persisted (n : Nat) (s : S) :
    (sendBlob n s).persisted = s.persisted := by
  unfold sendBlob; split_ifs <;> rfl

@[simp] theorem sendBlob_stopSeqCount (n : Nat) (s : S) :
    (sendBlob n s).stopSeqCount = s.stopSeqCount := by
  unfold sendBlob; split_ifs <;> rfl

@[simp] theorem srf_status (s : S) : (stopRecorderAndFlush s).status = s.status := by
  unfold stopRecorderAndFlush; cases s.recorder <;> simp <;> split_ifs <;> simp

@[simp] theorem srf_isCapturing (s : S) :
    (stopRecorderAndFlush s).isCapturing = s.isCapturing := by
  unfold stopRecorderAndFlush; cases s.recorder <;> simp <;> split_ifs <;> simp

@[simp] theorem srf_isCapturingRef (s : S) :
    (stopRecorderAndFlush s).isCapturingRef = s.isCapturingRef := by
  unfold stopRecorderAndFlush; cases s.recorder <;> simp <;> split_ifs <;> simp

@[simp] theorem srf_isPaused (s : S) : (stopRecorderAndFlush s).isPaused = s.isPaused := by
  unfold stopRecorderAndFlush; cases s.recorder <;> simp <;> split_ifs <;> simp

@[simp] theorem srf_timer (s : S) : (stopRecorderAndFlush s).timer = s.timer := by
  unfold stopRecorderAndFlush; cases s.recorder <;> simp <;> split_ifs <;> simp

@[simp] theorem srf_pendingStops (s : S) :
    (stopRecorderAndFlush s).pendingStops = s.pendingStops := by
  unfold stopRecorderAndFlush; cases s.recorder <;> simp <;> split_ifs <;> simp

@[simp] theorem srf_streamSet (s : S) : (stopRecorderAndFlush s).streamSet = s.streamSet := by
  unfold stopRecorderAndFlush; cases s.recorder <;> simp <;> split_ifs <;> simp

@[simp] theorem srf_streamLive (s : S) :
    (stopRecorderAndFlush s).streamLive = s.streamLive := by
  unfold stopRecorderAndFlush; cases s.recorder <;> simp <;> split_ifs <;> simp

@[simp] theorem srf_transcript (s : S) :
    (stopRecorderAndFlush s).transcript = s.transcript := by
  unfold stopRecorderAndFlush; cases s.recorder <;> simp <;> split_ifs <;> simp

@[simp] theorem srf_persisted (s : S) : (stopRecorderAndFlush s).persisted = s.persisted := by
  unfold stopRecorderAndFlush; cases s.recorder <;> simp <;> split_ifs <;> simp

@[simp] theorem srf_stopSeqCount (s : S) :
    (stopRecorderAndFlush s).stopSeqCount = s.stopSeqCount := by
  unfold stopRecorderAndFlush; cases s.recorder <;> simp <;> split_ifs <;> simp

@[simp] theorem srf_recorder (s : S) :
    (stopRecorderAndFlush s).recorder =
      match s.recorder with
      | some r => some { r with active := false }
      | none => none := by
  unfold stopRecorderAndFlush
  cases hr : s.recorder with
  | none => simpa using hr
  | some r =>
    cases r with
    | mk ts ch act =>
      cases act
      · simpa using hr
      · simp only [hr]; split_ifs <;> simp

@[simp] theorem sendBlob_framePending (n : Nat) (s : S) :
    (sendBlob n s).framePending = s.framePending := by
  unfold sendBlob; split_ifs <;> rfl

@[simp] theorem srf_framePending (s : S) :
    (stopRecorderAndFlush s).framePending = s.framePending := by
  unfold stopRecorderAndFlush; cases s.recorder <;> simp <;> split_ifs <;> simp

@[simp] theorem srf_recActive (s : S) : recActive (stopRecorderAndFlush s) = false := by
  unfold stopRecorderAndFlush recActive
  cases hr : s.recorder with
  | none => simp [hr]
  | some r =>
    cases hra : r.active <;> simp [hr, hra] <;> split_ifs <;> simp

@[simp] theorem srf_activeRecorders (s : S) :
    (stopRecorderAndFlush s).activeRecorders =
      if recActive s = true then s.activeRecorders - 1 else s.activeRecorders := by
  unfold stopRecorderAndFlush recActive
  cases hr : s.recorder with
  | none => simp [hr]
  | some r =>
    cases hra : r.active <;> simp [hr, hra] <;> split_ifs <;> simp

@[simp] theorem str_status (s : S) : (startTranscriptionRecorder s).status = s.status := by
  unfold startTranscriptionRecorder; split_ifs <;> rfl

@[simp] theorem str_isCapturing (s : S) :
    (startTranscriptionRecorder s).isCapturing = s.isCapturing := by
  unfold startTranscriptionRecorder; split_ifs <;> rfl

@[simp] theorem str_isCapturingRef (s : S) :
    (startTranscriptionRecorder s).isCapturingRef = s.isCapturingRef := by
  unfold startTranscriptionRecorder; split_ifs <;> rfl

@[simp] theorem str_isPaused (s : S) :
    (startTranscriptionRecorder s).isPaused = s.isPaused := by
  unfold startTranscriptionRecorder; split_ifs <;> rfl

@[simp] theorem str_timer (s : S) : (startTranscriptionRecorder s).timer = s.timer := by
  unfold startTranscriptionRecorder; split_ifs <;> rfl

@[simp] theorem str_pendingStops (s : S) :
    (startTranscriptionRecorder s).pendingStops = s.pendingStops := by
  unfold startTranscriptionRecorder; split_ifs <;> rfl

@[simp] theorem str_streamSet (s : S) :
    (startTranscriptionRecorder s).streamSet = s.streamSet := by
  unfold startTranscriptionRecorder; split_ifs <;> rfl

@[simp] theorem str_streamLive (s : S) :
    (startTranscriptionRecorder s).streamLive = s.streamLive := by
  unfold startTranscriptionRecorder; split_ifs <;> rfl

@[simp] theorem str_transcript (s : S) :
    (startTranscriptionRecorder s).transcript = s.transcript := by
  unfold startTranscriptionRecorder; split_ifs <;> rfl

@[simp] theorem str_persisted (s : S) :
    (startTranscriptionRecorder s).persisted = s.persisted := by
  unfold startTranscriptionRecorder; split_ifs <;> rfl

@[simp] theorem str_recActive (s : S) :
    recActive (startTranscriptionRecorder s) = ((s.streamSet && s.streamLive) || recActive s) := by
  unfold startTranscriptionRecorder recActive
  cases hs1 : s.streamSet <;> cases hs2 : s.streamLive <;> simp [hs1, hs2]

@[simp] theorem str_activeRecorders (s : S) :
    (startTranscriptionRecorder s).activeRecorders =
      s.activeRecorders + (if (s.streamSet && s.streamLive) = true then 1 else 0) := by
  unfold startTranscriptionRecorder
  cases hs1 : s.streamSet <;> cases hs2 : s.streamLive <;> simp [hs1, hs2]

@[simp] theorem dataChunk_status (n : Nat) (s : S) : (dataChunk n s).status = s.status := by
  unfold dataChunk; cases s.recorder <;> simp <;> split_ifs <;> simp

@[simp] theorem dataChunk_isCapturing (n : Nat) (s : S) :
    (dataChunk n s).isCapturing = s.isCapturing := by
  unfold dataChunk; cases s.recorder <;> simp <;> split_ifs <;> simp

@[simp] theorem dataChunk_isCapturingRef (n : Nat) (s : S) :
    (dataChunk n s).isCapturingRef = s.isCapturingRef := by
  unfold dataChunk; cases s.recorder <;> simp <;> split_ifs <;> simp

@[simp] theorem dataChunk_isPaused (n : Nat) (s : S) :
    (dataChunk n s).isPaused = s.isPaused := by
  unfold dataChunk; cases s.recorder <;> simp <;> split_ifs <;> simp

@[simp] theorem dataChunk_timer (n : Nat) (s : S) : (dataChunk n s).timer = s.timer := by
  unfold dataChunk; cases s.recorder <;> simp <;> split_ifs <;> simp

@[simp] theorem dataChunk_pendingStops (n : Nat) (s : S) :
    (dataChunk n s).pendingStops = s.pendingStops := by
  unfold dataChunk; cases s.recorder <;> simp <;> split_ifs <;> simp

@[simp] theorem dataChunk_streamSet (n : Nat) (s : S) :
    (dataChunk n s).streamSet = s.streamSet := by
  unfold dataChunk; cases s.recorder <;> simp <;> split_ifs <;> simp

@[simp] theorem dataChunk_streamLive (n : Nat) (s : S) :
    (dataChunk n s).streamLive = s.streamLive := by
  unfold dataChunk; cases s.recorder <;> simp <;> split_ifs <;> simp

@[simp] theorem dataChunk_recActive (n : Nat) (s : S) :
    recActive (dataChunk n s) = recActive s := by
  unfold dataChunk recActive
  cases hr : s.recorder with
  | none => simp [hr]
  | some r => cases hra : r.active <;> simp [hr, hra]

@[simp] theorem dataChunk_activeRecorders (n : Nat) (s : S) :
    (dataChunk n s).activeRecorders = s.activeRecorders := by
  unfold dataChunk; cases s.recorder <;> simp <;> split_ifs <;> simp

@[simp] theorem uploadComplete_status (ok : Bool) (text : String) (now : Nat) (tl : String)
    (s : S) : (uploadComplete ok text now tl s).status = s.status := by
  unfold uploadComplete; cases s.pendingUploads <;> simp <;> split_ifs <;> simp

@[simp] theorem uploadComplete_isCapturing (ok : Bool) (text : String) (now : Nat) (tl : String)
    (s : S) : (uploadComplete ok text now tl s).isCapturing = s.isCapturing := by
  unfold uploadComplete; cases s.pendingUploads <;> simp <;> split_ifs <;> simp

@[simp] theorem uploadComplete_isCapturingRef (ok : Bool) (text : String) (now : Nat)
    (tl : String) (s : S) :
    (uploadComplete ok text now tl s).isCapturingRef = s.isCapturingRef := by
  unfold uploadComplete; cases s.pendingUploads <;> simp <;> split_ifs <;> simp

@[simp] theorem uploadComplete_isPaused (ok : Bool) (text : String) (now : Nat) (tl : String)
    (s : S) : (uploadComplete ok text now tl s).isPaused = s.isPaused := by
  unfold uploadComplete; cases s.pendingUploads <;> simp <;> split_ifs <;> simp

@[simp] theorem uploadComplete_timer (ok : Bool) (text : String) (now : Nat) (tl : String)
    (s : S) : (uploadComplete ok text now tl s).timer = s.timer := by
  unfold uploadComplete; cases s.pendingUploads <;> simp <;> split_ifs <;> simp

@[simp] theorem uploadComplete_pendingStops (ok : Bool) (text : String) (now : Nat)
    (tl : String) (s : S) :
    (uploadComplete ok text now tl s).pendingStops = s.pendingStops := by
  unfold uploadComplete; cases s.pendingUploads <;> simp <;> split_ifs <;> simp

@[simp] theorem uploadComplete_streamSet (ok : Bool) (text : String) (now : Nat) (tl : String)
    (s : S) : (uploadComplete ok text now tl s).streamSet = s.streamSet := by
  unfold uploadComplete; cases s.pendingUploads <;> simp <;> split_ifs <;> simp

@[simp] theorem uploadComplete_streamLive (ok : Bool) (text : String) (now : Nat) (tl : String)
    (s : S) : (uploadComplete ok text now tl s).streamLive = s.streamLive := by
  unfold uploadComplete; cases s.pendingUploads <;> simp <;> split_ifs <;> simp

@[simp] theorem uploadComplete_recActive (ok : Bool) (text : String) (now : Nat) (tl : String)
    (s : S) : recActive (uploadComplete ok text now tl s) = recActive s := by
  unfold uploadComplete recActive; cases s.pendingUploads <;> simp <;> split_ifs <;> simp

@[simp] theorem uploadComplete_activeRecorders (ok : Bool) (text : String) (now : Nat)
    (tl : String) (s : S) :
    (uploadComplete ok text now tl s).activeRecorders = s.activeRecorders := by
  unfold uploadComplete; cases s.pendingUploads <;> simp <;> split_ifs <;> simp

@[simp] theorem uploadComplete_persisted (ok : Bool) (text : String) (now : Nat)
    (tl : String) (s : S) :
    (uploadComplete ok text now tl s).persisted = s.persisted := by
  unfold uploadComplete; cases s.pendingUploads <;> simp <;> split_ifs <;> simp

@[simp] theorem uploadComplete_stopSeqCount (ok : Bool) (text : String) (now : Nat)
    (tl : String) (s : S) :
    (uploadComplete ok text now tl s).stopSeqCount = s.stopSeqCount := by
  unfold uploadComplete; cases s.pendingUploads <;> simp <;> split_ifs <;> simp

theorem inv_init : Inv init := by
  constructor <;> decide

theorem inv_step {s s2 : S} (h : Inv s) (hs : RStep s s2) : Inv s2 := by
  obtain ⟨hPa, hId, hSt, hRf, hCn, hCa, hLe, hPe, hRq, hTi, hRc⟩ := h
  cases hs with
  | start m hc hr hp =>
    have hra : recActive s = false := by
      by_contra hh
      simp only [Bool.not_eq_false] at hh
      exact absurd (hRc hh).1 (by simp [hc])
    rcases hrec : s.recorder with _ | r
    · constructor <;>
        simp [startOkEv, startServerTranscription, startTranscriptionRecorder, recActive,
              hp, hc, hrec, hRf, hCn]
    · cases hact : r.active
      · constructor <;>
          simp [startOkEv, startServerTranscription, startTranscriptionRecorder, recActive,
                hp, hc, hrec, hact, hRf, hCn]
      · simp [recActive, hrec, hact] at hra
  | toggle hc hp =>
    have hstat := hCa hc hp
    cases hip : s.isPaused with
    | false =>
      rcases hrec : s.recorder with _ | r
      · constructor <;>
          simp [togglePause, stopServerTranscription, recActive, hip, hc, hp, hstat,
                hrec, hRf, hCn]
      · cases hact : r.active <;>
          constructor <;>
          simp [togglePause, stopServerTranscription, recActive, hip, hc, hp, hstat,
                hrec, hact, hRf, hCn]
    | true =>
      have hra := (hPa hip).1
      rcases hrec : s.recorder with _ | r
      · cases hs1 : s.streamSet <;> cases hs2 : s.streamLive <;>
          constructor <;>
          simp [togglePause, startServerTranscription, startTranscriptionRecorder, recActive,
                hip, hc, hp, hstat, hrec, hRf, hCn, hs1, hs2]
      · cases hact : r.active
        · cases hs1 : s.streamSet <;> cases hs2 : s.streamLive <;>
            constructor <;>
            simp [togglePause, startServerTranscription, startTranscriptionRecorder, recActive,
                  hip, hc, hp, hstat, hrec, hact, hRf, hCn, hs1, hs2]
        · simp [recActive, hrec, hact] at hra
  | stopClick hc hns hp =>
    rcases hrec : s.recorder with _ | r
    · constructor <;>
        simp [stopClickEv, stopBody, stopServerTranscription, cleanup, recActive,
              hp, hc, hns, hrec, hRf, hCn]
    · cases hact : r.active <;>
        constructor <;>
        simp [stopClickEv, stopBody, stopServerTranscription, cleanup, recActive,
              hp, hc, hns, hrec, hact, hRf, hCn]
  | ended hp =>
    cases href : s.isCapturingRef with
    | false =>
      have heq : trackEnded s = { s with streamLive := false } := by
        simp [trackEnded, href]
      rw [heq]
      exact ⟨hPa, hId, hSt, hRf, hCn, hCa, hLe, hPe, hRq, hTi, hRc⟩
    | true =>
      have hic : s.isCapturing = true := hRf ▸ href
      rcases hrec : s.recorder with _ | r
      · constructor <;>
          simp [trackEnded, stopBody, stopServerTranscription, cleanup, recActive,
                href, hic, hp, hrec, hRf, hCn]
      · cases hact : r.active <;>
          constructor <;>
          simp [trackEnded, stopBody, stopServerTranscription, cleanup, recActive,
                href, hic, hp, hrec, hact, hRf, hCn]
  | tick ht =>
    obtain ⟨hst, hpa, hic⟩ := hTi ht
    have href : s.isCapturingRef = true := by rw [hRf]; exact hic
    have hp : s.pendingStops = [] := by
      by_contra hh
      exact absurd (hPe hh) (by simp [hst])
    rcases hrec : s.recorder with _ | r
    · cases hs1 : s.streamSet <;> cases hs2 : s.streamLive <;>
        constructor <;>
        simp [cycleTranscriptionRecorder, startTranscriptionRecorder, recActive,
              hst, hpa, hic, href, hp, hrec, hRf, hCn, ht, hs1, hs2]
    · cases hact : r.active <;>
        cases hs1 : s.streamSet <;> cases hs2 : s.streamLive <;>
        constructor <;>
        simp [cycleTranscriptionRecorder, startTranscriptionRecorder, recActive,
              hst, hpa, hic, href, hp, hrec, hact, hRf, hCn, ht, hs1, hs2]
  | finish hne =>
    have hst := hPe hne
    obtain ⟨hra, htm⟩ := hSt hst
    rcases hps : s.pendingStops with _ | ⟨ps, rest⟩
    · exact absurd hps hne
    · have hrest : rest = [] := by
        have hl := hLe
        rw [hps] at hl
        simpa using hl
      subst hrest
      rcases hrec : s.recorder with _ | r
      · cases hmid : ps.meetingId <;>
          constructor <;>
          simp [stopFinish, recActive, hps, hmid, hst, hrec, hRf, hCn, htm]
      · cases hact : r.active
        · cases hmid : ps.meetingId <;>
            constructor <;>
            simp [stopFinish, recActive, hps, hmid, hst, hrec, hact, hRf, hCn, htm]
        · simp [recActive, hrec, hact] at hra
  | chunk size =>
    constructor <;>
      simp only [dataChunk_status, dataChunk_isCapturing, dataChunk_isCapturingRef,
        dataChunk_isPaused, dataChunk_timer, dataChunk_pendingStops, dataChunk_recActive,
        dataChunk_activeRecorders, dataChunk_streamSet, dataChunk_streamLive] <;>
      first
        | exact hPa | exact hId | exact hSt | exact hRf | exact hCn | exact hCa
        | exact hLe | exact hPe | exact hRq | exact hTi | exact hRc
  | upload ok text now tl =>
    constructor <;>
      simp only [uploadComplete_status, uploadComplete_isCapturing,
        uploadComplete_isCapturingRef, uploadComplete_isPaused, uploadComplete_timer,
        uploadComplete_pendingStops, uploadComplete_recActive,
        uploadComplete_activeRecorders, uploadComplete_streamSet,
        uploadComplete_streamLive] <;>
      first
        | exact hPa | exact hId | exact hSt | exact hRf | exact hCn | exact hCa
        | exact hLe | exact hPe | exact hRq | exact hTi | exact hRc

theorem reach_inv {s : S} (h : RReach s) : Inv s := by
  induction h with
  | refl => exact inv_init
  | step _ hstep ih => exact inv_step ih hstep

/-- C1: the cycling transcription recorder runs on a fixed 10-second cycle:
`startServerTranscription` schedules the repeating timer with a 10000 ms
period, and a firing of that timer runs `cycleTranscriptionRecorder`; each
encoder is started with a 1000 ms timeslice (1-second sub-chunks); on each
firing the current encoder is stopped, finalizing its accumulated sub-chunks
into one self-contained segment which is handed to upload (when the capturing
flag admits the handoff), and a fresh encoder is started if and only if the
capturing flag is still set. -/
theorem C1_cycle_and_period (s : S) (r : Recorder)
    (hset : s.streamSet = true) (hlive : s.streamLive = true)
    (hrec : s.recorder = some r) (hact : r.active = true)
    (hmid : s.meetingId.isSome = true) (hsize : 1000 ≤ r.chunks.sum) :
    (startServerTranscription s).timer = some { periodMs := 10000 } ∧
    (s.timer.isSome = true → timerTick s = cycleTranscriptionRecorder s) ∧
    (startTranscriptionRecorder s).recorder =
      some { timesliceMs := 1000, chunks := [], active := true } ∧
    recActive (cycleTranscriptionRecorder s) = s.isCapturingRef ∧
    (cycleTranscriptionRecorder s).pendingUploads =
      s.pendingUploads ++ (if s.isCapturingRef = true then [r.chunks.sum] else []) ∧
    (s.isCapturingRef = true →
      (cycleTranscriptionRecorder s).recorder =
        some { timesliceMs := 1000, chunks := [], active := true }) := by
  have hchunks : r.chunks ≠ [] := by
    intro hh
    rw [hh] at hsize
    simp at hsize
  have hnlt : ¬ r.chunks.sum < 1000 := Nat.not_lt.mpr hsize
  rcases hm : s.meetingId with _ | mv
  · rw [hm] at hmid
    simp at hmid
  · have h1 : (startServerTranscription s).timer = some { periodMs := 10000 } := by
      simp [startServerTranscription]
    have h2 : s.timer.isSome = true → timerTick s = cycleTranscriptionRecorder s := by
      intro ht
      simp [timerTick, ht]
    have h3 : (startTranscriptionRecorder s).recorder =
        some { timesliceMs := 1000, chunks := [], active := true } := by
      simp [startTranscriptionRecorder, hset, hlive]
    refine ⟨h1, h2, h3, ?_, ?_, ?_⟩ <;>
      cases href : s.isCapturingRef <;>
      simp [cycleTranscriptionRecorder, startTranscriptionRecorder, stopRecorderAndFlush,
            sendBlob, recActive, hset, hlive, hrec, hact, hm, href, hchunks, hnlt]

/-- Witness for the cycling-recorder theorem at a concrete capturing state
with an active encoder holding sub-chunks of 600 and 600 bytes. -/
theorem C1_cycle_and_period_witness :
    (startServerTranscription c1State).timer = some { periodMs := 10000 } ∧
    (c1State.timer.isSome = true → timerTick c1State = cycleTranscriptionRecorder c1State) ∧
    (startTranscriptionRecorder c1State).recorder =
      some { timesliceMs := 1000, chunks := [], active := true } ∧
    recActive (cycleTranscriptionRecorder c1State) = c1State.isCapturingRef ∧
    (cycleTranscriptionRecorder c1State).pendingUploads =
      c1State.pendingUploads ++
        (if c1State.isCapturingRef = true then
          [({ timesliceMs := 1000, chunks := [600, 600], active := true } : Recorder).chunks.sum]
         else []) ∧
    (c1State.isCapturingRef = true →
      (cycleTranscriptionRecorder c1State).recorder =
        some { timesliceMs := 1000, chunks := [], active := true }) :=
  C1_cycle_and_period c1State { timesliceMs := 1000, chunks := [600, 600], active := true }
    (by decide) (by decide) (by decide) (by decide) (by decide) (by decide)

/-- C2 counterexample: the claim asserts that no cycle timer is scheduled
while the session is idle, but the code permits two reachable traces ending
in `idle` with the cycle timer scheduled.  Trace 1: during the stopping
phase of a stop click (the Pause/Resume button stays enabled and the
capturing flag is still set), the user toggles pause and then resume; resume
calls `startServerTranscription`, which re-schedules the 10-second interval,
and the rest of `stopCapture` never clears it.  Trace 2: the first
persistence call of the stop rejects, so `stopCapture`'s catch branch sets
status idle while skipping the reset block — the capturing flags stay set
with no stop in flight — and a subsequent pause/resume toggle re-schedules
the interval the same way. -/
theorem C2_pause_idle_counterexample :
    (UReach (stopFinish (togglePause (togglePause (stopClickEv (startOkEv 3 init))))) ∧
     (stopFinish (togglePause (togglePause (stopClickEv (startOkEv 3 init))))).status =
       Status.idle ∧
     (stopFinish (togglePause (togglePause (stopClickEv (startOkEv 3 init))))).timer =
       some { periodMs := 10000 }) ∧
    (UReach (togglePause (togglePause (stopFinishFail 0 (stopClickEv (startOkEv 3 init))))) ∧
     (togglePause (togglePause (stopFinishFail 0 (stopClickEv (startOkEv 3 init))))).status =
       Status.idle ∧
     (togglePause (togglePause (stopFinishFail 0 (stopClickEv (startOkEv 3 init))))).pendingStops =
       [] ∧
     (togglePause (togglePause (stopFinishFail 0 (stopClickEv (startOkEv 3 init))))).isCapturing =
       true ∧
     (togglePause (togglePause (stopFinishFail 0 (stopClickEv (startOkEv 3 init))))).timer =
       some { periodMs := 10000 }) := by
  refine ⟨⟨?_, by decide, by decide⟩, ⟨?_, by decide, by decide, by decide, by decide⟩⟩
  · exact UReach.step
      (UReach.step
        (UReach.step
          (UReach.step (UReach.step UReach.refl (UStep.start 3 (by decide) (by decide)))
            (UStep.stopClick (by decide) (by decide)))
          (UStep.toggle (by decide)))
        (UStep.toggle (by decide)))
      (UStep.finish (by decide))
  · exact UReach.step
      (UReach.step
        (UReach.step
          (UReach.step (UReach.step UReach.refl (UStep.start 3 (by decide) (by decide)))
            (UStep.stopClick (by decide) (by decide)))
          (UStep.finishFail 0 (by decide)))
        (UStep.toggle (by decide)))
      (UStep.toggle (by decide))

/-- C2 (amended): in every state reachable while (i) no user or platform
event interleaves with an in-flight stop sequence and (ii) every stop
sequence's persistence calls all resolve, at most one cycling recorder is
active; none is active and no cycle timer is scheduled while the session is
paused or idle; pausing stops the current recorder and clears the interval
timer, and resuming re-schedules the 10-second cycle timer (a brand-new
cycle).  Both provisos are necessary: the original unconditional claim fails
when a resume is toggled during an in-flight stop, and also after a stop
whose persistence call rejected, since the catch branch leaves the capturing
flags set at status idle and a later resume re-schedules the interval (see
the two counterexample traces). -/
theorem C2_pause_idle_amended {s : S} (h : RReach s) :
    ((s.isPaused = true ∨ s.status = Status.idle) →
      recActive s = false ∧ s.timer = none) ∧
    s.activeRecorders ≤ 1 ∧
    (s.isPaused = false →
      recActive (togglePause s) = false ∧ (togglePause s).timer = none ∧
      (togglePause s).isPaused = true) ∧
    (s.isPaused = true →
      (togglePause s).timer = some { periodMs := 10000 } ∧
      (togglePause s).isPaused = false) := by
  have inv := reach_inv h
  refine ⟨?_, ?_, ?_, ?_⟩
  · rintro (hp | hp)
    · exact inv.pausedClean hp
    · exact ⟨(inv.idleClean hp).1, (inv.idleClean hp).2.1⟩
  · rw [inv.counterSync]
    split_ifs <;> omega
  · intro hip
    refine ⟨?_, ?_, ?_⟩ <;>
      simp [togglePause, stopServerTranscription, recActive, hip]
  · intro hip
    constructor <;> simp [togglePause, startServerTranscription, hip]

/-- Witness for the amended pause/idle invariant, applied at the reachable
paused state obtained by starting a session and clicking pause. -/
theorem C2_pause_idle_amended_witness :
    (((togglePause (startOkEv 3 init)).isPaused = true ∨
        (togglePause (startOkEv 3 init)).status = Status.idle) →
      recActive (togglePause (startOkEv 3 init)) = false ∧
      (togglePause (startOkEv 3 init)).timer = none) ∧
    (togglePause (startOkEv 3 init)).activeRecorders ≤ 1 ∧
    ((togglePause (startOkEv 3 init)).isPaused = false →
      recActive (togglePause (togglePause (startOkEv 3 init))) = false ∧
      (togglePause (togglePause (startOkEv 3 init))).timer = none ∧
      (togglePause (togglePause (startOkEv 3 init))).isPaused = true) ∧
    ((togglePause (startOkEv 3 init)).isPaused = true →
      (togglePause (togglePause (startOkEv 3 init))).timer = some { periodMs := 10000 } ∧
      (togglePause (togglePause (startOkEv 3 init))).isPaused = false) :=
  C2_pause_idle_amended
    (RReach.step (RReach.step RReach.refl (RStep.start 3 (by decide) (by decide) (by decide)))
      (RStep.toggle (by decide) (by decide)))

/-- C10: the transcript document persisted at stop is built from exactly the
entry sequence captured when `stopCapture` was invoked (the closure
snapshot); the three persistence calls use that snapshot; an upload that
completes after that point appends its entry to the in-memory transcript but
the persisted document is unchanged — in particular the entry produced by
the final partial segment flushed during the stop sequence is never included
in the persisted document. -/
theorem C10_persisted_snapshot (s : S) (ps : PendingStop) (rest : List PendingStop)
    (m now : Nat) (text tl : String)
    (hps : s.pendingStops = ps :: rest) (hm : ps.meetingId = some m)
    (htext : trimWs text ≠ "") (hpu : (stopFinish s).pendingUploads ≠ []) :
    (stopFinish s).persisted = some ps.transcriptSnapshot ∧
    (stopFinish s).calls =
      s.calls ++ [BCall.persistTranscript, BCall.updateMeeting, BCall.recordingStop] ∧
    (uploadComplete true text now tl (stopFinish s)).transcript =
      (stopFinish s).transcript ++
        [{ id := now, speaker := "Speaker", text := trimWs text, timestamp := tl }] ∧
    (uploadComplete true text now tl (stopFinish s)).persisted =
      some ps.transcriptSnapshot := by
  rcases hq : (stopFinish s).pendingUploads with _ | ⟨u, us⟩
  · exact absurd hq hpu
  · refine ⟨?_, ?_, ?_, ?_⟩ <;>
      simp [stopFinish, uploadComplete, hps, hm, hq, htext] <;>
      simp [stopFinish, hps, hm] at hq ⊢ <;>
      simp [hq]

/-- Witness for the persisted-snapshot theorem on the concrete stop trace:
the persisted document contains exactly the "hello" entry captured at the
stop click, while the final flushed segment's "world" entry lands only in
the in-memory transcript. -/
theorem C10_persisted_snapshot_witness :
    (stopFinish c10Trace).persisted =
      some [{ id := 100, speaker := "Speaker", text := "hello", timestamp := "t1" }] ∧
    (stopFinish c10Trace).calls =
      c10Trace.calls ++
        [BCall.persistTranscript, BCall.updateMeeting, BCall.recordingStop] ∧
    (uploadComplete true "world" 200 "t2" (stopFinish c10Trace)).transcript =
      (stopFinish c10Trace).transcript ++
        [{ id := 200, speaker := "Speaker", text := trimWs "world", timestamp := "t2" }] ∧
    (uploadComplete true "world" 200 "t2" (stopFinish c10Trace)).persisted =
      some [{ id := 100, speaker := "Speaker", text := "hello", timestamp := "t1" }] :=
  C10_persisted_snapshot c10Trace
    { meetingId := some 7,
      transcriptSnapshot := [{ id := 100, speaker := "Speaker", text := "hello",
                               timestamp := "t1" }] }
    [] 7 200 "world" "t2" (by decide) (by decide) (by decide) (by decide)

end Protocol

namespace Capture

/-- C3 counterexample: the claim asserts that when any of the three
persistence calls fails the error is surfaced to the caller, but
`stopCapture` never inspects `response.ok`: with the meeting-metadata update
resolving as an HTTP error (simulated 500), all three calls are issued, no
error is surfaced, and the run completes as a success. -/
theorem C3_http_error_counterexample :
    c3Env.updateMeeting = Except.ok { ok := false } ∧
    (stopCapture (some 1) [] c3Env).calls =
      [Protocol.BCall.persistTranscript, Protocol.BCall.updateMeeting,
       Protocol.BCall.recordingStop] ∧
    (stopCapture (some 1) [] c3Env).surfacedError = none ∧
    (stopCapture (some 1) [] c3Env).flagsReset = true :=
  ⟨rfl, rfl, rfl, rfl⟩

/-- C3 (amended): the stop sequence issues the three persistence calls in
order as long as each preceding call resolves (regardless of HTTP status);
an error is surfaced to the caller exactly when some call rejects (network
failure), in which case the remaining calls are skipped; in every case local
cleanup has already completed (tracks and contexts released) and the status
resets to idle; the capturing flags are cleared only on a fully successful
run. -/
theorem C3_stop_sequence_amended (m : Nat) (transcript : List Protocol.Entry)
    (env : StopEnv) :
    (stopCapture (some m) transcript env).cleanupDone = true ∧
    (stopCapture (some m) transcript env).streamsReleased = true ∧
    (stopCapture (some m) transcript env).contextsClosed = true ∧
    (stopCapture (some m) transcript env).status = Protocol.Status.idle ∧
    (stopCapture (some m) transcript env).persistedDoc =
      some (Protocol.renderTranscript transcript) ∧
    (stopCapture (some m) transcript env).calls =
      (match env.persistTranscript, env.updateMeeting with
       | Except.error _, _ => [Protocol.BCall.persistTranscript]
       | Except.ok _, Except.error _ =>
         [Protocol.BCall.persistTranscript, Protocol.BCall.updateMeeting]
       | Except.ok _, Except.ok _ =>
         [Protocol.BCall.persistTranscript, Protocol.BCall.updateMeeting,
          Protocol.BCall.recordingStop]) ∧
    (stopCapture (some m) transcript env).surfacedError =
      (match env.persistTranscript, env.updateMeeting, env.recordingStop with
       | Except.ok _, Except.ok _, Except.ok _ => none
       | _, _, _ => some "Failed to save recording. Please try again.") ∧
    (stopCapture (some m) transcript env).flagsReset =
      (match env.persistTranscript, env.updateMeeting, env.recordingStop with
       | Except.ok _, Except.ok _, Except.ok _ => true
       | _, _, _ => false) := by
  rcases env with ⟨p, u, r2⟩
  cases p <;> cases u <;> cases r2 <;>
    exact ⟨rfl, rfl, rfl, rfl, rfl, rfl, rfl, rfl⟩

/-- C4: when the acquired display stream contains zero audio tracks, the
start sequence fails with the no-audio error, every track of the acquired
stream is stopped, the session returns to idle, and no backend call to
`/recording/start` is made. -/
theorem C4_no_audio_aborts (env : StartEnv) (ts : List Track)
    (hd : env.display = AcqOutcome.granted ts)
    (hna : ts.filter (fun t => t.kind == TrackKind.audio) = []) :
    (startCapture env).error = some CapError.noAudio ∧
    (startCapture env).status = Protocol.Status.idle ∧
    (startCapture env).displayTracks = ts.map stopTrack ∧
    (∀ t ∈ (startCapture env).displayTracks, t.stopped = true) ∧
    (startCapture env).calls = [] ∧
    Protocol.BCall.recordingStart ∉ (startCapture env).calls := by
  have hacq : captureSystemAudio env.display =
      Except.error (CapError.noAudio, ts.map stopTrack) := by
    simp [captureSystemAudio, hd, hna]
  refine ⟨?_, ?_, ?_, ?_, ?_, ?_⟩ <;>
    simp [startCapture, hacq, stopTrack]

/-- Witness for the no-audio abort at a display stream holding a single
video track and no audio track. -/
theorem C4_no_audio_aborts_witness :
    (startCapture c4Env).error = some CapError.noAudio ∧
    (startCapture c4Env).status = Protocol.Status.idle ∧
    (startCapture c4Env).displayTracks =
      [({ kind := TrackKind.video, stopped := false } : Track)].map stopTrack ∧
    (∀ t ∈ (startCapture c4Env).displayTracks, t.stopped = true) ∧
    (startCapture c4Env).calls = [] ∧
    Protocol.BCall.recordingStart ∉ (startCapture c4Env).calls :=
  C4_no_audio_aborts c4Env [{ kind := TrackKind.video, stopped := false }] rfl (by decide)

/-- C5: under the send guards (meeting id set, capturing flag set, blob at
least 1000 bytes, reader success), a TranscriptEntry is appended if and only
if the response resolves ok with text that is non-empty after trimming; a
rejected (network-failure) request leaves the transcript unchanged, the
function returns normally, and the cycle timer is untouched, so the cycling
loop is never aborted. -/
theorem C5_upload_append_iff (m blobSize now : Nat) (tlabel b64 : String)
    (env : SendEnv) (st : SendState)
    (hsize : 1000 ≤ blobSize) (hreader : env.readerResult = Except.ok b64) :
    (sendBlobForTranscription (some m) true blobSize now tlabel env st).transcript =
      (match env.netResult with
       | Except.ok resp =>
         if resp.ok && Protocol.trimWs resp.text ≠ "" then
           st.transcript ++
             [{ id := now, speaker := "Speaker",
                text := Protocol.trimWs resp.text, timestamp := tlabel }]
         else st.transcript
       | Except.error _ => st.transcript) ∧
    (sendBlobForTranscription (some m) true blobSize now tlabel env st).timerScheduled =
      st.timerScheduled ∧
    (sendBlobForTranscription (some m) true blobSize now tlabel env st).isTranscribing =
      false := by
  have hnlt : ¬ blobSize < 1000 := Nat.not_lt.mpr hsize
  rcases hn : env.netResult with e | resp <;>
    refine ⟨?_, ?_, ?_⟩ <;>
    simp [sendBlobForTranscription, hreader, hn, hnlt] <;>
    split_ifs <;>
    simp

/-- Witness for the append-iff theorem at a concrete ok response whose text
trims to "hi". -/
theorem C5_upload_append_iff_witness :
    (sendBlobForTranscription (some 1) true 2000 1000 "t"
        { readerResult := Except.ok "b64", netResult := Except.ok { ok := true, text := " hi " } }
        { transcript := [], isTranscribing := false, timerScheduled := true }).transcript =
      (match ({ readerResult := Except.ok "b64",
                netResult := Except.ok { ok := true, text := " hi " } } : SendEnv).netResult with
       | Except.ok resp =>
         if resp.ok && Protocol.trimWs resp.text ≠ "" then
           ({ transcript := [], isTranscribing := false,
              timerScheduled := true } : SendState).transcript ++
             [{ id := 1000, speaker := "Speaker",
                text := Protocol.trimWs resp.text, timestamp := "t" }]
         else ({ transcript := [], isTranscribing := false,
                 timerScheduled := true } : SendState).transcript
       | Except.error _ =>
         ({ transcript := [], isTranscribing := false,
            timerScheduled := true } : SendState).transcript) ∧
    (sendBlobForTranscription (some 1) true 2000 1000 "t"
        { readerResult := Except.ok "b64", netResult := Except.ok { ok := true, text := " hi " } }
        { transcript := [], isTranscribing := false,
          timerScheduled := true }).timerScheduled =
      ({ transcript := [], isTranscribing := false,
         timerScheduled := true } : SendState).timerScheduled ∧
    (sendBlobForTranscription (some 1) true 2000 1000 "t"
        { readerResult := Except.ok "b64", netResult := Except.ok { ok := true, text := " hi " } }
        { transcript := [], isTranscribing := false,
          timerScheduled := true }).isTranscribing = false :=
  C5_upload_append_iff 1 2000 1000 "t" "b64"
    { readerResult := Except.ok "b64", netResult := Except.ok { ok := true, text := " hi " } }
    { transcript := [], isTranscribing := false, timerScheduled := true }
    (by decide) rfl

/-- C7 counterexample: the claim asserts the level monitor stops sampling as
soon as the session leaves `capturing`, including entering paused; but after
a pause the still-capturing flag consulted by `updateLevel` is still set, so
a pending frame samples and reschedules while the session is paused. -/
theorem C7_paused_sampling_counterexample :
    (Protocol.togglePause (Protocol.startOkEv 3 Protocol.init)).isPaused = true ∧
    (Protocol.togglePause (Protocol.startOkEv 3 Protocol.init)).isCapturingRef = true ∧
    (updateLevel 64
      { analyserSet := true,
        capturingRef := (Protocol.togglePause (Protocol.startOkEv 3 Protocol.init)).isCapturingRef,
        framePending := true, sampled := 0, audioLevel := 0 }).framePending = true ∧
    (updateLevel 64
      { analyserSet := true,
        capturingRef := (Protocol.togglePause (Protocol.startOkEv 3 Protocol.init)).isCapturingRef,
        framePending := true, sampled := 0, audioLevel := 0 }).sampled = 1 := by
  refine ⟨by decide, by decide, by decide, by decide⟩

/-- C7 (amended): `updateLevel` samples and reschedules exactly when the
analyser is set and the still-capturing flag holds; the flag is checked
before every reschedule, the pending frame is cancelled by `cleanup` during
the stop sequence, but pausing does not clear the still-capturing flag, so
the monitor keeps sampling while the session is paused. -/
theorem C7_monitor_amended (avg : Nat) (st : MonState) (s : Protocol.S) :
    (updateLevel avg st).framePending = (st.analyserSet && st.capturingRef) ∧
    (updateLevel avg st).sampled =
      (if (st.analyserSet && st.capturingRef) = true then st.sampled + 1 else st.sampled) ∧
    (Protocol.cleanup s).framePending = false ∧
    (Protocol.togglePause s).isCapturingRef = s.isCapturingRef := by
  refine ⟨?_, ?_, ?_, ?_⟩
  · cases h1 : st.analyserSet <;> cases h2 : st.capturingRef <;> simp [updateLevel, h1, h2]
  · cases h1 : st.analyserSet <;> cases h2 : st.capturingRef <;> simp [updateLevel, h1, h2]
  · simp [Protocol.cleanup]
  · cases hip : s.isPaused <;>
      simp [Protocol.togglePause, Protocol.startServerTranscription,
            Protocol.stopServerTranscription, hip]

/-- C8 counterexample: two uploads completing within the same wall-clock
millisecond (`Date.now()` = 1000 for both) append two entries sharing the
same id, so ids are neither unique nor strictly increasing. -/
theorem C8_same_ms_counterexample :
    ((sendBlobForTranscription (some 1) true 2000 1000 "t" c8EnvB
        (sendBlobForTranscription (some 1) true 2000 1000 "t" c8EnvA
          { transcript := [], isTranscribing := false,
            timerScheduled := true })).transcript.map Protocol.Entry.id) = [1000, 1000] ∧
    ¬ List.Pairwise (fun a b => a.id < b.id)
        (sendBlobForTranscription (some 1) true 2000 1000 "t" c8EnvB
          (sendBlobForTranscription (some 1) true 2000 1000 "t" c8EnvA
            { transcript := [], isTranscribing := false,
              timerScheduled := true })).transcript := by
  refine ⟨by decide, by decide⟩

/-- C8 (amended): every appended entry carries as id the wall-clock
millisecond at which its upload completed; hence ids are strictly increasing
and unique across entries appended at strictly increasing clock instants
(appending at an instant strictly above every existing id preserves strict
monotonicity), but two entries appended within the same millisecond share an
id. -/
theorem C8_id_monotone_amended (mid : Option Nat) (cap : Bool) (blobSize now : Nat)
    (tlabel : String) (env : SendEnv) (st : SendState)
    (hmono : List.Pairwise (fun a b => a.id < b.id) st.transcript)
    (hfresh : ∀ e ∈ st.transcript, e.id < now) :
    List.Pairwise (fun a b => a.id < b.id)
      (sendBlobForTranscription mid cap blobSize now tlabel env st).transcript ∧
    ∀ e ∈ (sendBlobForTranscription mid cap blobSize now tlabel env st).transcript,
      e ∈ st.transcript ∨ e.id = now := by
  have hcases : (sendBlobForTranscription mid cap blobSize now tlabel env st).transcript =
      st.transcript ∨
      ∃ txt : String,
        (sendBlobForTranscription mid cap blobSize now tlabel env st).transcript =
          st.transcript ++ [{ id := now, speaker := "Speaker", text := txt,
                              timestamp := tlabel }] := by
    unfold sendBlobForTranscription
    split_ifs
    · exact Or.inl rfl
    · exact Or.inl rfl
    · rcases hr : env.readerResult with e | b
      · exact Or.inl rfl
      · rcases hn : env.netResult with e | resp
        · exact Or.inl rfl
        · by_cases hok : (resp.ok && Protocol.trimWs resp.text ≠ "") = true
          · simp only [hok, if_true]
            exact Or.inr ⟨Protocol.trimWs resp.text, rfl⟩
          · simp only [hok, if_false]
            exact Or.inl rfl
  rcases hcases with hc | ⟨txt, hc⟩
  · rw [hc]
    exact ⟨hmono, fun e he => Or.inl he⟩
  · rw [hc]
    constructor
    · refine List.pairwise_append.mpr ⟨hmono, by simp, ?_⟩
      intro a ha b hb
      simp only [List.mem_singleton] at hb
      subst hb
      exact hfresh a ha
    · intro e he
      rcases List.mem_append.mp he with h | h
      · exact Or.inl h
      · simp only [List.mem_singleton] at h
        subst h
        exact Or.inr rfl

/-- Witness for the id-monotonicity theorem: appending at millisecond 1000
to the empty transcript preserves strict monotonicity, and each resulting
entry either pre-existed or carries id 1000. -/
theorem C8_id_monotone_amended_witness :
    List.Pairwise (fun a b => a.id < b.id)
      (sendBlobForTranscription (some 1) true 2000 1000 "t" c8EnvA
        { transcript := [], isTranscribing := false, timerScheduled := true }).transcript ∧
    ∀ e ∈ (sendBlobForTranscription (some 1) true 2000 1000 "t" c8EnvA
        { transcript := [], isTranscribing := false, timerScheduled := true }).transcript,
      e ∈ ({ transcript := [], isTranscribing := false,
             timerScheduled := true } : SendState).transcript ∨ e.id = 1000 :=
  C8_id_monotone_amended (some 1) true 2000 1000 "t" c8EnvA
    { transcript := [], isTranscribing := false, timerScheduled := true }
    (by simp) (by simp)

/-- C9: the start action is gated on a non-empty trimmed title: with an
empty trimmed title the Start button is disabled, so no stream acquisition
and no `/recording/start` call can happen. -/
theorem C9_title_required (title : String) (status : Protocol.Status)
    (capturing : Bool) (env : StartEnv) (h : Protocol.trimWs title = "") :
    startCaptureClick title status capturing env = none := by
  simp [startCaptureClick, startButtonEnabled, h]

/-- Witness: a whitespace-only title trims to empty and the click does not
proceed. -/
theorem C9_title_required_witness :
    startCaptureClick "   " Protocol.Status.idle false
      { display := AcqOutcome.notAllowed, backendStart := Except.error () } = none :=
  C9_title_required "   " Protocol.Status.idle false
    { display := AcqOutcome.notAllowed, backendStart := Except.error () } (by decide)

end Capture

end Huddle
